import Mathlib

/-! # balance-sheet-analyst: the React client

A shallow embedding of the six source files of the client:

* `frontend/src/app.jsx` and `frontendd/src/main.jsx` (the two root components `App`),
* `frontendd/src/pages/login.jsx` (`Login`, `handleLogin`),
* `frontendd/src/pages/dashboard.jsx` (`Dashboard`),
* `frontendd/src/components/chatbox.jsx` (`ChatBox`, `askAI`),
* `frontend/src/components/chartpanel.jsx` (`ChartPanel`).

Components are functions from props and hook state to an element tree; event handlers
are functions from the hook state and the answer of the network to the list of effects
they perform and the way the `async` function completes.  Every request is settled
before the next event is handled (one request in flight at a time).
-/

/-! ## JavaScript values -/

/-- A JavaScript number: NaN, an infinity, or the finite value
`(-1)^negative * mantissa * 2^exponent` (so both zeros are `finite _ 0 _`).
The program performs no arithmetic; only the truthiness of a number is observed. -/
inductive JSNumber where
  | nan
  | infinity (negative : Bool)
  | finite (negative : Bool) (mantissa : Nat) (exponent : Int)
  deriving DecidableEq, Repr

/-- The JavaScript values a parsed HTTP body, a prop or a piece of hook state can hold. -/
inductive JSValue where
  | undefined
  | null
  | bool (b : Bool)
  | number (n : JSNumber)
  | string (s : String)
  | array (items : List JSValue)
  | object (fields : List (String × JSValue))

/-- The errors the program can meet. -/
inductive JSError where
  /-- Reading a property of `null` or `undefined`. -/
  | typeError
  /-- The rejection of `axios.post`: `some status` for a response whose status is not a
  success status, `none` for a transport failure. -/
  | axiosError (status : Option Nat)
  /-- The error React throws for a child that is a plain object
  ("Objects are not valid as a React child"). -/
  | invalidChild
  deriving DecidableEq, Repr

namespace JSNumber

/-- The number literal `n` of the source text. -/
def ofNat (n : Nat) : JSNumber := .finite false n 0

/-- ToBoolean on numbers: `+0`, `-0` and `NaN` are falsy. -/
def truthy : JSNumber → Bool
  | .nan => false
  | .infinity _ => true
  | .finite _ mantissa _ => decide (mantissa ≠ 0)

end JSNumber

namespace JSValue

/-- ToBoolean, as used by `cond ? a : b`, `!x` and `x && y`. -/
def truthy : JSValue → Bool
  | .undefined => false
  | .null => false
  | .bool b => b
  | .number n => n.truthy
  | .string s => decide (s ≠ "")
  | .array _ => true
  | .object _ => true

/-- The operator `!x`. -/
def not (v : JSValue) : Bool := !v.truthy

/-- The property read `v.key`, for the keys the program reads (`name`, `role`, `answer`
and the four snapshot fields), none of which is defined on a built-in prototype: an
object yields its own field or `undefined`, `null` and `undefined` throw a TypeError,
every other value yields `undefined`. -/
def get (v : JSValue) (key : String) : Except JSError JSValue :=
  match v with
  | .undefined => .error .typeError
  | .null => .error .typeError
  | .object fields => .ok ((fields.lookup key).getD .undefined)
  | _ => .ok .undefined

mutual
/-- Whether React can render the value as a child: strings and numbers are text,
`undefined`, `null` and booleans render nothing, an array renders its items, and a plain
object is rejected. -/
def validChild : JSValue → Bool
  | .object _ => false
  | .array items => validChildren items
  | _ => true
/-- Whether React can render every item of an array child. -/
def validChildren : List JSValue → Bool
  | [] => true
  | v :: vs => v.validChild && validChildren vs
end

end JSValue

/-! ## Element trees -/

/-- The functions that the components bind to event props. -/
inductive Handler where
  /-- The setter `setUser` returned by `useState(null)` in `App`. -/
  | setUser
  /-- The closure `() => setUser(null)` of `App`. -/
  | clearUser
  /-- The function `handleLogin` of `Login`. -/
  | handleLogin
  /-- The closure `(e) => setEmail(e.target.value)`. -/
  | changeEmail
  /-- The closure `(e) => setPassword(e.target.value)`. -/
  | changePassword
  /-- The function `askAI` of `ChatBox`. -/
  | askAI
  /-- The closure `(e) => setQuery(e.target.value)`. -/
  | changeQuery
  deriving DecidableEq, Repr

/-- The type of a JSX element: a host tag (`div`) or a component (`Login`). -/
inductive NodeType where
  | host (tag : String)
  | component (name : String)
  deriving DecidableEq, Repr

/-- The value of a prop: a JavaScript value or a function. -/
inductive PropValue where
  | js (v : JSValue)
  | fn (h : Handler)

/-- The element tree a component returns. -/
inductive Element where
  /-- Literal JSX text. -/
  | text (s : String)
  /-- A child written as an expression in braces, evaluated. -/
  | expr (v : JSValue)
  | node (type : NodeType) (props : List (String × PropValue)) (children : List Element)

/-- The functions among a list of props, in order. -/
def propHandlers : List (String × PropValue) → List Handler
  | [] => []
  | (_, .fn h) :: ps => h :: propHandlers ps
  | (_, .js _) :: ps => propHandlers ps

namespace Element

mutual
/-- The names of the components mounted in a tree, in document order. -/
def components : Element → List String
  | .text _ => []
  | .expr _ => []
  | .node type _ children =>
    (match type with
      | .component name => [name]
      | .host _ => []) ++ componentsList children
/-- The components mounted in a list of children. -/
def componentsList : List Element → List String
  | [] => []
  | c :: cs => c.components ++ componentsList cs
end

mutual
/-- The functions bound to props anywhere in a tree, in document order. -/
def handlers : Element → List Handler
  | .text _ => []
  | .expr _ => []
  | .node _ props children => propHandlers props ++ handlersList children
/-- The functions bound to props in a list of children. -/
def handlersList : List Element → List Handler
  | [] => []
  | c :: cs => c.handlers ++ handlersList cs
end

mutual
/-- Whether React can render the tree: every expression child in it is a valid child. -/
def renderable : Element → Bool
  | .text _ => true
  | .expr v => v.validChild
  | .node _ _ children => renderableList children
/-- Whether React can render every element of a list of children. -/
def renderableList : List Element → Bool
  | [] => true
  | c :: cs => c.renderable && renderableList cs
end

/-- The JSX child `v && e`: the element when `v` is truthy, the value `v` otherwise. -/
def and (v : JSValue) (e : Element) : Element :=
  if v.truthy then e else .expr v

end Element

/-- A string-valued prop such as `className="..."`. -/
def strProp (key value : String) : String × PropValue := (key, .js (.string value))

/-! ## The network -/

/-- What the network answers to one request: a response with a status and a parsed body,
or a transport failure. -/
inductive HttpOutcome where
  | response (status : Nat) (data : JSValue)
  | networkError

/-- The network, as the client sees it: the answer to a POST of `body` to `url`. -/
abbrev Network := String → JSValue → HttpOutcome

/-- The object `res` that `axios.post` resolves with. -/
structure AxiosResponse where
  status : Nat
  data : JSValue

namespace axios

/-- The default `validateStatus` of axios: the success statuses are 200 to 299. -/
def validateStatus (status : Nat) : Bool := decide (200 ≤ status) && decide (status < 300)

/-- The awaited call `await axios.post(url, body)`: the response for a success status, a
thrown error for any other status and for a transport failure. -/
def post (net : Network) (url : String) (body : JSValue) : Except JSError AxiosResponse :=
  match net url body with
  | .response status data =>
    if validateStatus status then .ok ⟨status, data⟩ else .error (.axiosError (some status))
  | .networkError => .error (.axiosError none)

end axios

/-- How a call of an `async` function ends: its promise is fulfilled, or rejected with
the error that escaped the function body. -/
inductive Completion where
  | fulfilled
  | rejected (reason : JSError)
  deriving DecidableEq, Repr

/-! ## `frontend/src/components/chartpanel.jsx` -/

namespace ChartPanel

/-- One object literal `{ name: ..., value: ... }` of `chartData`. -/
def entry (name : String) (value : JSValue) : JSValue :=
  .object [("name", .string name), ("value", value)]

/-- The array `chartData` built from the prop `data`. -/
def chartData (data : JSValue) : Except JSError JSValue := do
  let revenue ← data.get "revenue_from_operations"
  let assets ← data.get "total_assets"
  let liabilities ← data.get "total_liabilities"
  let cash ← data.get "cash_and_cash_equivalents"
  pure (.array [entry "Revenue" revenue, entry "Assets" assets,
    entry "Liabilities" liabilities, entry "Cash" cash])

/-- The tree returned once `chartData` is built. -/
def view (chartData : JSValue) : Element :=
  .node (.host "div") [strProp "className" "bg-white p-6 rounded-xl shadow-md mb-6"]
    [ .node (.host "h2") [strProp "className" "text-xl font-semibold mb-4"]
        [.text "Company Financial Overview"],
      .node (.component "ResponsiveContainer")
        [strProp "width" "100%", ("height", .js (.number (.ofNat 300)))]
        [ .node (.component "BarChart") [("data", .js chartData)]
            [ .node (.component "XAxis") [strProp "dataKey" "name"] [],
              .node (.component "YAxis") [] [],
              .node (.component "Tooltip") [] [],
              .node (.component "Bar") [strProp "dataKey" "value", strProp "fill" "#2563eb"] [] ] ] ]

end ChartPanel

/-- The component `ChartPanel({ data })`. -/
def ChartPanel (data : JSValue) : Except JSError Element := do
  let chartData ← ChartPanel.chartData data
  pure (ChartPanel.view chartData)

/-! ## `frontendd/src/pages/dashboard.jsx` -/

/-- The component `Dashboard({ user, onLogout })`. -/
def Dashboard (user : JSValue) (onLogout : Handler) : Except JSError Element := do
  let name ← user.get "name"
  let role ← user.get "role"
  pure (.node (.host "div")
    [strProp "className" "flex flex-col items-center justify-center h-screen"]
    [ .node (.host "h1") [strProp "className" "text-3xl font-bold mb-4"]
        [.text "Welcome, ", .expr name],
      .node (.host "p") [] [.text "Your role: ", .expr role],
      .node (.host "button")
        [("onClick", .fn onLogout),
          strProp "className" "bg-red-500 text-white px-4 py-2 rounded mt-4"]
        [.text "Logout"] ])

/-! ## The two root components -/

namespace frontend

/-- The component `App` of `frontend/src/app.jsx`, at the hook state `user`:
`!user ? <Login/> : <Dashboard/>` (the `console.log` of the state before it changes
no state and is left out). -/
def App (user : JSValue) : Element :=
  .node (.host "div") [strProp "className" "min-h-screen bg-gray-50 text-gray-900"]
    [ if user.not then
        .node (.component "Login") [("onLogin", .fn .setUser)] []
      else
        .node (.component "Dashboard") [("user", .js user), ("onLogout", .fn .clearUser)] [] ]

end frontend

namespace frontendd

/-- The component `App` of `frontendd/src/main.jsx`, at the hook state `user`:
`user ? <Dashboard/> : <Login/>`. -/
def App (user : JSValue) : Element :=
  .node (.host "div") [strProp "className" "min-h-screen bg-gray-50 text-gray-900"]
    [ if user.truthy then
        .node (.component "Dashboard") [("user", .js user), ("onLogout", .fn .clearUser)] []
      else
        .node (.component "Login") [("onLogin", .fn .setUser)] [] ]

end frontendd

/-! ## `frontendd/src/pages/login.jsx` -/

/-- The hook state of a mounted `Login`. -/
structure LoginState where
  email : String
  password : String
  error : String
  deriving DecidableEq, Repr

/-- What `handleLogin` does to the world, in order. -/
inductive LoginEffect where
  | preventDefault
  | consoleLog (data : JSValue)
  | consoleError (err : JSError)
  /-- The call `onLogin(data)` of the prop. -/
  | onLogin (data : JSValue)
  | setError (message : String)

namespace Login

/-- The state of a freshly mounted `Login`: the three `useState("")`. -/
def initial : LoginState := ⟨"", "", ""⟩

/-- The address of the login request. -/
def url : String := "http://127.0.0.1:8000/login"

/-- The body `{ email, password }` of the login request. -/
def payload (s : LoginState) : JSValue :=
  .object [("email", .string s.email), ("password", .string s.password)]

/-- The function `handleLogin`: the effects it performs and how its promise settles.
The `try` block is the awaited call followed by `console.log` and `onLogin(res.data)`;
the `catch` block logs the error and sets the error string. -/
def handleLogin (net : Network) (s : LoginState) : List LoginEffect × Completion :=
  match axios.post net url (payload s) with
  | .ok res => ([.preventDefault, .consoleLog res.data, .onLogin res.data], .fulfilled)
  | .error err => ([.preventDefault, .consoleError err, .setError "Invalid credentials"], .fulfilled)

/-- The child `error && <p className="text-red-500 text-sm">error</p>` of the form. -/
def errorLine (s : LoginState) : Element :=
  Element.and (.string s.error)
    (.node (.host "p") [strProp "className" "text-red-500 text-sm"] [.expr (.string s.error)])

/-- The tree returned by `Login` at hook state `s`. -/
def render (s : LoginState) : Element :=
  .node (.host "div")
    [strProp "className" "flex flex-col items-center justify-center h-screen"]
    [ .node (.host "h1") [strProp "className" "text-2xl font-bold mb-4"] [.text "Login"],
      .node (.host "form")
        [("onSubmit", .fn .handleLogin), strProp "className" "flex flex-col gap-3 w-64"]
        [ .node (.host "input")
            [strProp "type" "email", strProp "placeholder" "Email", strProp "value" s.email,
              ("onChange", .fn .changeEmail), strProp "className" "border p-2 rounded"] [],
          .node (.host "input")
            [strProp "type" "password", strProp "placeholder" "Password",
              strProp "value" s.password, ("onChange", .fn .changePassword),
              strProp "className" "border p-2 rounded"] [],
          errorLine s,
          .node (.host "button") [strProp "className" "bg-blue-600 text-white py-2 rounded"]
            [.text "Login"] ] ]

end Login

/-! ## `frontendd/src/components/chatbox.jsx` -/

/-- The hook state of a mounted `ChatBox`. -/
structure ChatState where
  query : String
  response : JSValue

/-- What `askAI` does to the world. -/
inductive ChatEffect where
  | setResponse (value : JSValue)

namespace ChatBox

/-- The state of a freshly mounted `ChatBox`: the two `useState("")`. -/
def initial : ChatState := ⟨"", .string ""⟩

/-- The address of the ask request. -/
def url : String := "http://127.0.0.1:8000/ask"

/-- The body `{ query }` of the ask request. -/
def payload (s : ChatState) : JSValue := .object [("query", .string s.query)]

/-- The function `askAI`: the effects it performs and how its promise settles. There
is no `try`: an error thrown by the awaited call or by `res.data.answer` rejects the
promise before `setResponse` is reached. -/
def askAI (net : Network) (s : ChatState) : List ChatEffect × Completion :=
  match axios.post net url (payload s) with
  | .error err => ([], .rejected err)
  | .ok res =>
    match res.data.get "answer" with
    | .error err => ([], .rejected err)
    | .ok answer => ([.setResponse answer], .fulfilled)

/-- The state setters, applied to the hook state. -/
def applyEffect (s : ChatState) : ChatEffect → ChatState
  | .setResponse value => { s with response := value }

/-- The hook state after a click on Ask whose request has settled. -/
def ask (net : Network) (s : ChatState) : ChatState :=
  (askAI net s).1.foldl applyEffect s

/-- The hook state after a sequence of clicks on Ask, each settled before the next. -/
def askAll (s : ChatState) (nets : List Network) : ChatState :=
  nets.foldl (fun st net => ask net st) s

/-- The handler `(e) => setQuery(e.target.value)`. -/
def changeQuery (value : String) (s : ChatState) : ChatState := { s with query := value }

/-- The child `response && <div ...>response</div>`. -/
def answerLine (s : ChatState) : Element :=
  Element.and s.response
    (.node (.host "div") [strProp "className" "mt-3 bg-gray-50 p-3 rounded border"]
      [.expr s.response])

/-- The tree returned by `ChatBox` at hook state `s`. -/
def render (s : ChatState) : Element :=
  .node (.host "div") [strProp "className" "bg-white p-6 rounded-xl shadow-md"]
    [ .node (.host "h2") [strProp "className" "text-xl font-semibold mb-4"]
        [.text "Ask the Analyst AI"],
      .node (.host "textarea")
        [strProp "rows" "3", strProp "value" s.query, ("onChange", .fn .changeQuery),
          strProp "className" "w-full border rounded p-2 mb-3",
          strProp "placeholder" "Ask about revenue growth, assets, or liabilities..."] [],
      .node (.host "button")
        [("onClick", .fn .askAI), strProp "className" "bg-blue-600 text-white px-4 py-2 rounded"]
        [.text "Ask"],
      answerLine s ]

end ChatBox

/-! ## The application of `frontendd`: `App` with its mounted child -/

namespace frontendd

/-- What React puts in the place of the child element of the root: it calls the
component with the props written in the element, `Dashboard` with `user` and `onLogout`,
`Login` (at its hook state `login`) with `onLogin`; any other element stays as it is. -/
def mountChild (login : LoginState) : Element → Except JSError Element
  | .node (.component "Dashboard") [("user", .js user), ("onLogout", .fn onLogout)] [] =>
    Dashboard user onLogout
  | .node (.component "Login") [("onLogin", .fn _)] [] => .ok (Login.render login)
  | other => .ok other

/-- The render of the page at the hook state `user`: the tree of `App` with the output
of its child component in the place of the child. The render throws when the component
throws or returns a child that React cannot render. -/
def commit (user : JSValue) (login : LoginState) : Except JSError Element :=
  match App user with
  | .node type props [child] =>
    match mountChild login child with
    | .ok tree =>
      if tree.renderable then .ok (.node type props [tree]) else .error .invalidChild
    | .error err => .error err
  | other => .ok other

/-- The components on the page after the render: those of the tree of `App`, and none
when the render threw (there is no error boundary, so React unmounts the whole root). -/
def mounted (user : JSValue) (login : LoginState) : List String :=
  match commit user login with
  | .ok _ => (App user).components
  | .error _ => []

end frontendd

/-- The state of the page: the hook state `user` of `App`, and the hook state of the
`Login` instance when one is mounted (a component that is unmounted loses its state; one
that stays at the same place in the tree keeps it). -/
structure AppState where
  user : JSValue
  login : Option LoginState

/-- The things a user can do on the page. -/
inductive Event where
  /-- Typing in the email input. -/
  | changeEmail (value : String)
  /-- Typing in the password input. -/
  | changePassword (value : String)
  /-- Submitting the login form; the request settles as `net` answers. -/
  | submit (net : Network)
  /-- Clicking the Logout button. -/
  | logout

namespace AppState

/-- The state at page load: `useState(null)`, and `Login` freshly mounted. -/
def initial : AppState := ⟨.null, some Login.initial⟩

/-- The components on the page in state `s`. -/
def mounted (s : AppState) : List String :=
  frontendd.mounted s.user (s.login.getD Login.initial)

/-- The call `setUser(v)` followed by the render of `App`: `Login` keeps its hook state
if it was and stays mounted, starts afresh if it is newly mounted, and loses its state
if the page no longer holds it (another component took its place, or the render threw
and nothing is mounted any more). -/
def setUser (s : AppState) (v : JSValue) : AppState :=
  { user := v
    login :=
      if "Login" ∈ frontendd.mounted v (s.login.getD Login.initial) then
        some (s.login.getD Login.initial)
      else none }

/-- One effect of `handleLogin`, with `onLogin` bound to `setUser` as `App` passes it.
A `setError` on an instance that is no longer mounted does nothing. -/
def applyEffect (s : AppState) : LoginEffect → AppState
  | .onLogin data => s.setUser data
  | .setError message =>
    { s with login := s.login.map (fun l => { l with error := message }) }
  | _ => s

/-- One event; `none` when the control is not on the page. -/
def step (s : AppState) : Event → Option AppState
  | .changeEmail value =>
    s.login.map (fun l => { s with login := some { l with email := value } })
  | .changePassword value =>
    s.login.map (fun l => { s with login := some { l with password := value } })
  | .submit net =>
    s.login.map (fun l => (Login.handleLogin net l).1.foldl applyEffect s)
  | .logout =>
    if "Dashboard" ∈ s.mounted then some (s.setUser .null) else none

/-- The states the page can be in: the page-load state and what events lead to. -/
inductive Reachable : AppState → Prop where
  | init : Reachable initial
  | next {s t : AppState} (e : Event) (hs : Reachable s) (ht : s.step e = some t) : Reachable t

end AppState

/-! ## Concrete inputs -/

/-- The body with the fields `name: "Ann"` and `role: "cfo"`. -/
def annBody : JSValue := .object [("name", .string "Ann"), ("role", .string "cfo")]

/-- A backend that answers every request with `status` and `data`. -/
def netReply (status : Nat) (data : JSValue) : Network := fun _ _ => .response status data

/-- A network on which every request fails in transport. -/
def netDown : Network := fun _ _ => .networkError

/-- The body with the single field `answer`. -/
def answerBody (answer : String) : JSValue := .object [("answer", .string answer)]

/-- The page after the credentials `a@b.com` / `secret` were typed. -/
def typedState : AppState := ⟨.null, some ⟨"a@b.com", "secret", ""⟩⟩

/-- A body whose `name` is itself an object. -/
def nestedBody : JSValue :=
  .object [("name", .object [("first", .string "Ann")]), ("role", .string "cfo")]

/-- The page after Ann logged in. -/
def annState : AppState := ⟨annBody, none⟩

/-! ## Helper lemmas -/

/-- The awaited `axios.post` throws exactly on a transport failure and on a response
whose status lies outside 200..299. -/
theorem axios_post_error_iff (net : Network) (url : String) (body : JSValue) :
    (∃ err, axios.post net url body = .error err)
      ↔ (net url body = .networkError
          ∨ ∃ status data, net url body = .response status data
              ∧ (status < 200 ∨ 300 ≤ status)) := by
  unfold axios.post axios.validateStatus
  cases h : net url body with
  | networkError => simp
  | response status data =>
    by_cases h1 : 200 ≤ status <;> by_cases h2 : status < 300 <;> simp [h1, h2] <;> omega

theorem frontendd_App_components (v : JSValue) :
    (frontendd.App v).components = [if v.truthy then "Dashboard" else "Login"] := by
  unfold frontendd.App
  cases h : v.truthy <;> simp [Element.components, Element.componentsList]

/-- The tree of `Login` holds no object child: its render never throws. -/
theorem login_render_renderable (l : LoginState) : (Login.render l).renderable = true := by
  unfold Login.render Login.errorLine Element.and
  cases h : (JSValue.string l.error).truthy <;>
    simp [Element.renderable, Element.renderableList, JSValue.validChild]

/-- A truthy value has every property the program reads (possibly `undefined`). -/
theorem get_of_truthy (v : JSValue) (key : String) (h : v.truthy = true) :
    ∃ w, v.get key = .ok w := by
  cases v <;> first
    | exact ⟨_, rfl⟩
    | simp [JSValue.truthy] at h

/-- The tree of `Dashboard`, given the two properties it reads. -/
theorem dashboard_of_get (user name role : JSValue) (onLogout : Handler)
    (hn : user.get "name" = .ok name) (hr : user.get "role" = .ok role) :
    Dashboard user onLogout = .ok (.node (.host "div")
      [strProp "className" "flex flex-col items-center justify-center h-screen"]
      [ .node (.host "h1") [strProp "className" "text-3xl font-bold mb-4"]
          [.text "Welcome, ", .expr name],
        .node (.host "p") [] [.text "Your role: ", .expr role],
        .node (.host "button")
          [("onClick", .fn onLogout),
            strProp "className" "bg-red-500 text-white px-4 py-2 rounded mt-4"]
          [.text "Logout"] ]) := by
  simp [Dashboard, hn, hr, bind, Except.bind, pure, Except.pure]

theorem commit_of_falsy (v : JSValue) (l : LoginState) (h : v.truthy = false) :
    frontendd.commit v l = .ok (.node (.host "div")
      [strProp "className" "min-h-screen bg-gray-50 text-gray-900"] [Login.render l]) := by
  simp [frontendd.commit, frontendd.App, h, frontendd.mountChild, login_render_renderable]

theorem commit_of_truthy (v name role : JSValue) (l : LoginState) (h : v.truthy = true)
    (hn : v.get "name" = .ok name) (hr : v.get "role" = .ok role) :
    frontendd.commit v l
      = if name.validChild && role.validChild then
          .ok (.node (.host "div")
            [strProp "className" "min-h-screen bg-gray-50 text-gray-900"]
            [ .node (.host "div")
                [strProp "className" "flex flex-col items-center justify-center h-screen"]
                [ .node (.host "h1") [strProp "className" "text-3xl font-bold mb-4"]
                    [.text "Welcome, ", .expr name],
                  .node (.host "p") [] [.text "Your role: ", .expr role],
                  .node (.host "button")
                    [("onClick", .fn .clearUser),
                      strProp "className" "bg-red-500 text-white px-4 py-2 rounded mt-4"]
                    [.text "Logout"] ] ])
        else .error .invalidChild := by
  simp only [frontendd.commit, frontendd.App, h, if_true, frontendd.mountChild,
    dashboard_of_get v name role .clearUser hn hr]
  cases h1 : name.validChild <;> cases h2 : role.validChild <;>
    simp [Element.renderable, Element.renderableList, h1, h2]

theorem mounted_of_falsy (v : JSValue) (l : LoginState) (h : v.truthy = false) :
    frontendd.mounted v l = ["Login"] := by
  simp [frontendd.mounted, commit_of_falsy v l h, frontendd_App_components, h]

theorem mounted_of_truthy (v name role : JSValue) (l : LoginState) (h : v.truthy = true)
    (hn : v.get "name" = .ok name) (hr : v.get "role" = .ok role) :
    frontendd.mounted v l
      = if name.validChild && role.validChild then ["Dashboard"] else [] := by
  unfold frontendd.mounted
  rw [commit_of_truthy v name role l h hn hr, frontendd_App_components]
  cases h1 : name.validChild <;> cases h2 : role.validChild <;> simp [h]

theorem login_mounted_iff (v : JSValue) (l : LoginState) :
    "Login" ∈ frontendd.mounted v l ↔ v.truthy = false := by
  cases h : v.truthy
  · simp [mounted_of_falsy v l h]
  · obtain ⟨name, hn⟩ := get_of_truthy v "name" h
    obtain ⟨role, hr⟩ := get_of_truthy v "role" h
    rw [mounted_of_truthy v name role l h hn hr]
    cases name.validChild && role.validChild <;> simp

theorem truthy_of_dashboard_mounted (v : JSValue) (l : LoginState)
    (hd : "Dashboard" ∈ frontendd.mounted v l) : v.truthy = true := by
  cases h : v.truthy
  · simp [mounted_of_falsy v l h] at hd
  · rfl

theorem setUser_user (s : AppState) (v : JSValue) : (s.setUser v).user = v := rfl

theorem setUser_login_of_truthy (s : AppState) (v : JSValue) (h : v.truthy = true) :
    (s.setUser v).login = none := by
  have hm : ¬ "Login" ∈ frontendd.mounted v (s.login.getD Login.initial) := by
    rw [login_mounted_iff]; simp [h]
  simp [AppState.setUser, hm]

theorem setUser_login_of_falsy (s : AppState) (v : JSValue) (h : v.truthy = false) :
    (s.setUser v).login = some (s.login.getD Login.initial) := by
  have hm : "Login" ∈ frontendd.mounted v (s.login.getD Login.initial) :=
    (login_mounted_iff v _).2 h
  simp [AppState.setUser, hm]

theorem handleLogin_of_ok (net : Network) (l : LoginState) (res : AxiosResponse)
    (h : axios.post net Login.url (Login.payload l) = .ok res) :
    Login.handleLogin net l
      = ([.preventDefault, .consoleLog res.data, .onLogin res.data], .fulfilled) := by
  simp [Login.handleLogin, h]

theorem handleLogin_of_error (net : Network) (l : LoginState) (err : JSError)
    (h : axios.post net Login.url (Login.payload l) = .error err) :
    Login.handleLogin net l
      = ([.preventDefault, .consoleError err, .setError "Invalid credentials"], .fulfilled) := by
  simp [Login.handleLogin, h]

theorem step_submit_of_ok (s : AppState) (l : LoginState) (net : Network) (res : AxiosResponse)
    (hl : s.login = some l) (h : axios.post net Login.url (Login.payload l) = .ok res) :
    s.step (.submit net) = some (s.setUser res.data) := by
  simp [AppState.step, hl, handleLogin_of_ok net l res h, AppState.applyEffect]

theorem step_submit_of_error (s : AppState) (l : LoginState) (net : Network) (err : JSError)
    (hl : s.login = some l) (h : axios.post net Login.url (Login.payload l) = .error err) :
    s.step (.submit net)
      = some { s with login := some { l with error := "Invalid credentials" } } := by
  simp [AppState.step, hl, handleLogin_of_error net l err h, AppState.applyEffect]

/-- The invariant of the page: `Login` holds hook state exactly when `user` is falsy,
that is, exactly when `App` puts it on the page. -/
theorem reachable_login_iff {s : AppState} (hr : AppState.Reachable s) :
    s.login = none ↔ s.user.truthy = true := by
  induction hr with
  | init => simp [AppState.initial, JSValue.truthy]
  | @next s t e _ ht ih =>
    have hset : ∀ v, ((s.setUser v).login = none ↔ (s.setUser v).user.truthy = true) := by
      intro v
      rw [setUser_user]
      cases hv : v.truthy
      · simp [setUser_login_of_falsy s v hv]
      · simp [setUser_login_of_truthy s v hv]
    cases e with
    | changeEmail value =>
      cases hl : s.login with
      | none => simp [AppState.step, hl] at ht
      | some l =>
        simp [AppState.step, hl] at ht
        subst ht
        simpa [hl] using ih
    | changePassword value =>
      cases hl : s.login with
      | none => simp [AppState.step, hl] at ht
      | some l =>
        simp [AppState.step, hl] at ht
        subst ht
        simpa [hl] using ih
    | submit net =>
      cases hl : s.login with
      | none => simp [AppState.step, hl] at ht
      | some l =>
        cases hp : axios.post net Login.url (Login.payload l) with
        | ok res =>
          rw [step_submit_of_ok s l net res hl hp] at ht
          cases ht
          exact hset res.data
        | error err =>
          rw [step_submit_of_error s l net err hl hp] at ht
          cases ht
          simpa [hl] using ih
    | logout =>
      by_cases hd : "Dashboard" ∈ s.mounted
      · simp [AppState.step, hd] at ht
        subst ht
        exact hset .null
      · simp [AppState.step, hd] at ht

theorem ask_query (net : Network) (s : ChatState) : (ChatBox.ask net s).query = s.query := by
  unfold ChatBox.ask ChatBox.askAI
  cases axios.post net ChatBox.url (ChatBox.payload s) with
  | error err => rfl
  | ok res =>
    show (List.foldl ChatBox.applyEffect s
      (match res.data.get "answer" with
        | .error err => (([] : List ChatEffect), Completion.rejected err)
        | .ok answer => ([.setResponse answer], .fulfilled)).1).query = s.query
    cases res.data.get "answer" with
    | error err => rfl
    | ok a => rfl

theorem askAll_query (nets : List Network) (s : ChatState) :
    (ChatBox.askAll s nets).query = s.query := by
  induction nets generalizing s with
  | nil => rfl
  | cons net rest ih =>
    show (ChatBox.askAll (ChatBox.ask net s) rest).query = s.query
    rw [ih, ask_query]

/-! ## The root view -/

/-- C1: for every value of the hook state `user`, the two root components return the
same tree, which mounts exactly one component: `Dashboard`, with the props `user` (that
very value) and `onLogout`, when `user` is truthy, and `Login`, with the prop `onLogin`,
otherwise; `null` gives `Login`, and every object (every User) gives `Dashboard` with
that object as `user`. -/
theorem root_view_exactly_one (user : JSValue) :
    frontend.App user = frontendd.App user
    ∧ (frontendd.App user).components = [if user.truthy then "Dashboard" else "Login"]
    ∧ frontendd.App user
        = .node (.host "div")
            [("className", .js (.string "min-h-screen bg-gray-50 text-gray-900"))]
            [ if user.truthy then
                .node (.component "Dashboard")
                  [("user", .js user), ("onLogout", .fn .clearUser)] []
              else .node (.component "Login") [("onLogin", .fn .setUser)] [] ]
    ∧ frontend.App .null
        = .node (.host "div")
            [("className", .js (.string "min-h-screen bg-gray-50 text-gray-900"))]
            [.node (.component "Login") [("onLogin", .fn .setUser)] []]
    ∧ ∀ fields : List (String × JSValue),
        frontend.App (.object fields)
          = .node (.host "div")
              [("className", .js (.string "min-h-screen bg-gray-50 text-gray-900"))]
              [ .node (.component "Dashboard")
                  [("user", .js (.object fields)), ("onLogout", .fn .clearUser)] [] ] := by
  refine ⟨?_, frontendd_App_components user, rfl, rfl, fun _ => rfl⟩
  unfold frontend.App frontendd.App JSValue.not
  cases user.truthy <;> rfl

/-! ## Login -/

/-- C2 (counterexample): a 200 response with an empty body makes the session the empty
string, and the root view then still mounts `Login` and no `Dashboard`. -/
theorem login_success_empty_body_keeps_login :
    AppState.initial.step (.submit (netReply 200 (.string "")))
      = some ⟨.string "", some Login.initial⟩
    ∧ frontendd.App (.string "")
        = .node (.host "div")
            [("className", .js (.string "min-h-screen bg-gray-50 text-gray-900"))]
            [.node (.component "Login") [("onLogin", .fn .setUser)] []]
    ∧ "Dashboard" ∉ (frontendd.App (.string "")).components
    ∧ "Dashboard" ∉ frontendd.mounted (.string "") Login.initial := by
  have h : (JSValue.string "").truthy = false := by simp [JSValue.truthy]
  refine ⟨?_, rfl, ?_, ?_⟩
  · rw [step_submit_of_ok AppState.initial Login.initial (netReply 200 (.string ""))
      ⟨200, .string ""⟩ rfl rfl]
    have h2 := setUser_login_of_falsy AppState.initial (.string "") h
    have h1 := setUser_user AppState.initial (.string "")
    cases hs : AppState.initial.setUser (.string "") with
    | mk u lg =>
      rw [hs] at h1 h2
      simp only at h1 h2
      rw [h1, h2]
      rfl
  · rw [frontendd_App_components]
    simp [h]
  · rw [mounted_of_falsy _ _ h]
    simp

/-- C2 (amended): when the login request gets a success status with body `u`, the
session state after `handleLogin` settles is `u` verbatim. If `u` is falsy, `Login`
stays mounted with its state. If `u` is truthy, `Login` is unmounted and `App` returns
the element `Dashboard` with the props `user = u` and `onLogout`; `Dashboard` is then on
the page, showing `u.name` and `u.role`, when React can render both as children, and
when `u.name` or `u.role` is (or holds) a plain object the render throws and nothing is
left on the page. -/
theorem login_success_sets_session (s : AppState) (l : LoginState) (net : Network)
    (res : AxiosResponse) (hl : s.login = some l)
    (hok : axios.post net Login.url (Login.payload l) = .ok res) :
    (∃ t, s.step (.submit net) = some t ∧ t.user = res.data
      ∧ (if res.data.truthy then
          t.login = none
          ∧ frontendd.App t.user
              = .node (.host "div")
                  [("className", .js (.string "min-h-screen bg-gray-50 text-gray-900"))]
                  [ .node (.component "Dashboard")
                      [("user", .js res.data), ("onLogout", .fn .clearUser)] [] ]
          ∧ ∃ name role, res.data.get "name" = .ok name ∧ res.data.get "role" = .ok role
              ∧ (if name.validChild && role.validChild then
                  t.mounted = ["Dashboard"]
                  ∧ frontendd.commit t.user Login.initial
                      = .ok (.node (.host "div")
                          [("className", .js (.string "min-h-screen bg-gray-50 text-gray-900"))]
                          [ .node (.host "div")
                              [("className", .js (.string
                                "flex flex-col items-center justify-center h-screen"))]
                              [ .node (.host "h1")
                                  [("className", .js (.string "text-3xl font-bold mb-4"))]
                                  [.text "Welcome, ", .expr name],
                                .node (.host "p") [] [.text "Your role: ", .expr role],
                                .node (.host "button")
                                  [("onClick", .fn .clearUser),
                                    ("className", .js (.string
                                      "bg-red-500 text-white px-4 py-2 rounded mt-4"))]
                                  [.text "Logout"] ] ])
                else
                  t.mounted = []
                  ∧ frontendd.commit t.user Login.initial = .error .invalidChild)
        else
          t.login = some l
          ∧ frontendd.App t.user
              = .node (.host "div")
                  [("className", .js (.string "min-h-screen bg-gray-50 text-gray-900"))]
                  [.node (.component "Login") [("onLogin", .fn .setUser)] []]
          ∧ t.mounted = ["Login"]))
    ∧ (∀ fields : List (String × JSValue), (JSValue.object fields).validChild = false)
    ∧ (∀ text : String, (JSValue.string text).validChild = true)
    ∧ JSValue.undefined.validChild = true := by
  refine ⟨⟨s.setUser res.data, step_submit_of_ok s l net res hl hok, rfl, ?_⟩,
    fun _ => by simp [JSValue.validChild], fun _ => by simp [JSValue.validChild],
    by simp [JSValue.validChild]⟩
  cases hv : res.data.truthy
  · have hm := mounted_of_falsy res.data ((s.setUser res.data).login.getD Login.initial) hv
    simp [setUser_login_of_falsy s res.data hv, hl, setUser_user, frontendd.App, hv,
      AppState.mounted, strProp] at hm ⊢
    exact hm
  · obtain ⟨name, hn⟩ := get_of_truthy res.data "name" hv
    obtain ⟨role, hr⟩ := get_of_truthy res.data "role" hv
    have hm := mounted_of_truthy res.data name role
      ((s.setUser res.data).login.getD Login.initial) hv hn hr
    have hc := commit_of_truthy res.data name role Login.initial hv hn hr
    simp only [if_true]
    refine ⟨setUser_login_of_truthy s res.data hv, ?_, name, role, hn, hr, ?_⟩
    · simp [setUser_user, frontendd.App, hv, strProp]
    · cases hb : name.validChild && role.validChild
      · rw [hb] at hm hc
        exact ⟨by simpa [AppState.mounted] using hm, by simpa [setUser_user] using hc⟩
      · rw [hb] at hm hc
        exact ⟨by simpa [AppState.mounted] using hm,
          by simpa [setUser_user, strProp] using hc⟩

theorem login_success_sets_session_witness :
    AppState.initial.login = some Login.initial
    ∧ axios.post (netReply 200 annBody) Login.url (Login.payload Login.initial)
        = .ok ⟨200, annBody⟩
    ∧ (∃ t, AppState.initial.step (.submit (netReply 200 annBody)) = some t ∧ t.user = annBody
      ∧ (if annBody.truthy then
          t.login = none
          ∧ frontendd.App t.user
              = .node (.host "div")
                  [("className", .js (.string "min-h-screen bg-gray-50 text-gray-900"))]
                  [ .node (.component "Dashboard")
                      [("user", .js annBody), ("onLogout", .fn .clearUser)] [] ]
          ∧ ∃ name role, annBody.get "name" = .ok name ∧ annBody.get "role" = .ok role
              ∧ (if name.validChild && role.validChild then
                  t.mounted = ["Dashboard"]
                  ∧ frontendd.commit t.user Login.initial
                      = .ok (.node (.host "div")
                          [("className", .js (.string "min-h-screen bg-gray-50 text-gray-900"))]
                          [ .node (.host "div")
                              [("className", .js (.string
                                "flex flex-col items-center justify-center h-screen"))]
                              [ .node (.host "h1")
                                  [("className", .js (.string "text-3xl font-bold mb-4"))]
                                  [.text "Welcome, ", .expr name],
                                .node (.host "p") [] [.text "Your role: ", .expr role],
                                .node (.host "button")
                                  [("onClick", .fn .clearUser),
                                    ("className", .js (.string
                                      "bg-red-500 text-white px-4 py-2 rounded mt-4"))]
                                  [.text "Logout"] ] ])
                else
                  t.mounted = []
                  ∧ frontendd.commit t.user Login.initial = .error .invalidChild)
        else
          t.login = some Login.initial
          ∧ frontendd.App t.user
              = .node (.host "div")
                  [("className", .js (.string "min-h-screen bg-gray-50 text-gray-900"))]
                  [.node (.component "Login") [("onLogin", .fn .setUser)] []]
          ∧ t.mounted = ["Login"])) :=
  ⟨rfl, rfl, (login_success_sets_session AppState.initial Login.initial
    (netReply 200 annBody) ⟨200, annBody⟩ rfl rfl).1⟩

/-- A 200 response whose body has an object as `name` is stored as the session, but the
render of `Dashboard` throws on that child and nothing is left on the page. -/
theorem login_nested_name_unmounts_page :
    AppState.initial.step (.submit (netReply 200 nestedBody)) = some ⟨nestedBody, none⟩
    ∧ frontendd.commit nestedBody Login.initial = .error .invalidChild
    ∧ frontendd.mounted nestedBody Login.initial = [] := by
  have htruthy : nestedBody.truthy = true := rfl
  have hc := commit_of_truthy nestedBody (.object [("first", .string "Ann")]) (.string "cfo")
    Login.initial htruthy rfl rfl
  have hm := mounted_of_truthy nestedBody (.object [("first", .string "Ann")]) (.string "cfo")
    Login.initial htruthy rfl rfl
  have hv : ((JSValue.object [("first", .string "Ann")]).validChild
      && (JSValue.string "cfo").validChild) = false := rfl
  rw [hv] at hc hm
  refine ⟨?_, by simpa using hc, by simpa using hm⟩
  rw [step_submit_of_ok AppState.initial Login.initial (netReply 200 nestedBody)
    ⟨200, nestedBody⟩ rfl rfl]
  have h2 := setUser_login_of_truthy AppState.initial nestedBody htruthy
  have h1 := setUser_user AppState.initial nestedBody
  cases hs : AppState.initial.setUser nestedBody with
  | mk u lg =>
    rw [hs] at h1 h2
    simp only at h1 h2
    rw [h1, h2]

/-- C3: when the login request fails (a thrown `axios.post`: a status that is not a
success status, or a transport failure), `handleLogin` performs no `onLogin` call, the
session state is unchanged, the error string of `Login` becomes "Invalid credentials"
and is displayed, and `Login` stays mounted so that a further submission is possible. -/
theorem login_failure_shows_error (s : AppState) (l : LoginState) (net : Network)
    (err : JSError) (hl : s.login = some l)
    (hf : axios.post net Login.url (Login.payload l) = .error err) :
    (∀ data, LoginEffect.onLogin data ∉ (Login.handleLogin net l).1)
    ∧ ∃ t, s.step (.submit net) = some t ∧ t.user = s.user
      ∧ t.login = some { l with error := "Invalid credentials" }
      ∧ Login.errorLine { l with error := "Invalid credentials" }
          = .node (.host "p") [strProp "className" "text-red-500 text-sm"]
              [.expr (.string "Invalid credentials")]
      ∧ ∀ net2, (t.step (.submit net2)).isSome = true := by
  refine ⟨?_, _, step_submit_of_error s l net err hl hf, rfl, rfl, ?_, ?_⟩
  · intro data
    rw [handleLogin_of_error net l err hf]
    simp
  · simp [Login.errorLine, Element.and, JSValue.truthy]
  · intro net2
    simp [AppState.step]

theorem login_failure_shows_error_witness :
    typedState.login = some ⟨"a@b.com", "secret", ""⟩
    ∧ axios.post (netReply 401 .null) Login.url (Login.payload ⟨"a@b.com", "secret", ""⟩)
        = .error (.axiosError (some 401))
    ∧ ∃ t, typedState.step (.submit (netReply 401 .null)) = some t ∧ t.user = typedState.user
      ∧ t.login = some ⟨"a@b.com", "secret", "Invalid credentials"⟩
      ∧ Login.errorLine ⟨"a@b.com", "secret", "Invalid credentials"⟩
          = .node (.host "p") [strProp "className" "text-red-500 text-sm"]
              [.expr (.string "Invalid credentials")]
      ∧ ∀ net2, (t.step (.submit net2)).isSome = true :=
  ⟨rfl, rfl, (login_failure_shows_error typedState ⟨"a@b.com", "secret", ""⟩
    (netReply 401 .null) (.axiosError (some 401)) rfl rfl).2⟩

/-- C9 (counterexample): after the submission of `a@b.com` / `secret` is answered with
status 401, `Login` is still mounted and its buffers still hold `a@b.com` and `secret`. -/
theorem failed_login_keeps_credentials :
    typedState.step (.submit (netReply 401 .null))
      = some ⟨.null, some ⟨"a@b.com", "secret", "Invalid credentials"⟩⟩ :=
  step_submit_of_error typedState ⟨"a@b.com", "secret", ""⟩ (netReply 401 .null)
    (.axiosError (some 401)) rfl rfl

/-- C9 (amended): after a failed login submission `Login` remains mounted and its email
and password buffers still hold exactly the submitted values (only the error string
changes); the buffers are dropped when a submission succeeds with a truthy body, which
unmounts `Login`. -/
theorem failed_login_buffers_unchanged (s : AppState) (l : LoginState) (net : Network)
    (hl : s.login = some l) :
    (∀ err, axios.post net Login.url (Login.payload l) = .error err →
      ∃ t m, s.step (.submit net) = some t ∧ t.login = some m
        ∧ m.email = l.email ∧ m.password = l.password)
    ∧ (∀ res, axios.post net Login.url (Login.payload l) = .ok res → res.data.truthy = true →
      ∃ t, s.step (.submit net) = some t ∧ t.login = none) := by
  constructor
  · intro err hf
    exact ⟨_, _, step_submit_of_error s l net err hl hf, rfl, rfl, rfl⟩
  · intro res hok hv
    exact ⟨_, step_submit_of_ok s l net res hl hok, setUser_login_of_truthy s res.data hv⟩

theorem failed_login_buffers_unchanged_witness :
    typedState.login = some ⟨"a@b.com", "secret", ""⟩
    ∧ ∃ t m, typedState.step (.submit netDown) = some t ∧ t.login = some m
        ∧ m.email = "a@b.com" ∧ m.password = "secret" :=
  ⟨rfl, (failed_login_buffers_unchanged typedState ⟨"a@b.com", "secret", ""⟩ netDown rfl).1
    (.axiosError none) rfl⟩

/-! ## Logout -/

/-- C4: from every reachable state of the page in which the Logout button exists
(`Dashboard` is on the page), the logout action leads to the page-load state: the
session is `null`, the root view mounts `Login`, and the email, password and error
strings of `Login` are empty. -/
theorem logout_restores_initial (s : AppState) (hr : AppState.Reachable s)
    (hd : "Dashboard" ∈ s.mounted) :
    s.step .logout = some AppState.initial
    ∧ AppState.initial.user = .null
    ∧ (frontendd.App AppState.initial.user).components = ["Login"]
    ∧ AppState.initial.mounted = ["Login"]
    ∧ AppState.initial.login = some ⟨"", "", ""⟩ := by
  refine ⟨?_, rfl, ?_, mounted_of_falsy _ _ rfl, rfl⟩
  · have hnone : s.login = none :=
      (reachable_login_iff hr).2 (truthy_of_dashboard_mounted _ _ hd)
    have hfalsy : JSValue.null.truthy = false := rfl
    have h2 := setUser_login_of_falsy s .null hfalsy
    have h1 := setUser_user s .null
    simp only [AppState.step, hd, if_true]
    cases hs : s.setUser .null with
    | mk u lg =>
      rw [hs] at h1 h2
      simp only at h1 h2
      rw [h1, h2, hnone]
      rfl
  · rw [frontendd_App_components]
    rfl

theorem logout_restores_initial_witness :
    AppState.Reachable annState
    ∧ "Dashboard" ∈ annState.mounted
    ∧ annState.step .logout = some AppState.initial
    ∧ AppState.initial.user = .null
    ∧ (frontendd.App AppState.initial.user).components = ["Login"]
    ∧ AppState.initial.mounted = ["Login"]
    ∧ AppState.initial.login = some ⟨"", "", ""⟩ :=
  have htruthy : annBody.truthy = true := rfl
  have hr : AppState.Reachable annState :=
    AppState.Reachable.next (.submit (netReply 200 annBody)) AppState.Reachable.init
      (by
        rw [step_submit_of_ok AppState.initial Login.initial (netReply 200 annBody)
          ⟨200, annBody⟩ rfl rfl]
        have h2 := setUser_login_of_truthy AppState.initial annBody htruthy
        have h1 := setUser_user AppState.initial annBody
        cases hs : AppState.initial.setUser annBody with
        | mk u lg =>
          rw [hs] at h1 h2
          simp only at h1 h2
          rw [h1, h2]
          rfl)
  have hd : "Dashboard" ∈ annState.mounted := by
    have hm := mounted_of_truthy annBody (.string "Ann") (.string "cfo") Login.initial
      htruthy rfl rfl
    have hv : ((JSValue.string "Ann").validChild && (JSValue.string "cfo").validChild)
        = true := rfl
    rw [hv] at hm
    simp only [if_true] at hm
    show "Dashboard" ∈ frontendd.mounted annBody Login.initial
    rw [hm]
    exact List.mem_singleton.2 rfl
  ⟨hr, hd, logout_restores_initial annState hr hd⟩

/-! ## ChartPanel -/

/-- C5: for every snapshot object `data`, `chartData` is a list of exactly four entries
named "Revenue", "Assets", "Liabilities", "Cash" in that order, whose values are the
fields `revenue_from_operations`, `total_assets`, `total_liabilities` and
`cash_and_cash_equivalents` of `data`, each unchanged (`undefined` for a field that
`data` lacks), and this list is what `ChartPanel` hands to the chart. -/
theorem chartData_four_entries (fields : List (String × JSValue)) :
    ChartPanel.chartData (.object fields)
      = .ok (.array
          [ .object [("name", .string "Revenue"),
              ("value", (fields.lookup "revenue_from_operations").getD .undefined)],
            .object [("name", .string "Assets"),
              ("value", (fields.lookup "total_assets").getD .undefined)],
            .object [("name", .string "Liabilities"),
              ("value", (fields.lookup "total_liabilities").getD .undefined)],
            .object [("name", .string "Cash"),
              ("value", (fields.lookup "cash_and_cash_equivalents").getD .undefined)] ])
    ∧ ∃ chart, ChartPanel.chartData (.object fields) = .ok chart
        ∧ ChartPanel (.object fields) = .ok (ChartPanel.view chart) := by
  exact ⟨rfl, _, rfl, rfl⟩

/-! ## ChatBox -/

/-- C6: after any sequence of ask calls that ends with a successful one (the request
gets a success status and the `answer` field of its body can be read), the state of
`ChatBox` is the unchanged query text together with the `answer` field of that last
response alone: nothing of the earlier answers is kept, and the answer line shows it. -/
theorem ask_overwrites_answer (s : ChatState) (nets : List Network) (net : Network)
    (res : AxiosResponse) (answer : JSValue)
    (hpost : axios.post net ChatBox.url (ChatBox.payload s) = .ok res)
    (hans : res.data.get "answer" = .ok answer) :
    ChatBox.askAll s (nets ++ [net]) = ⟨s.query, answer⟩
    ∧ (ChatBox.askAI net (ChatBox.askAll s nets)).1 = [.setResponse answer]
    ∧ (ChatBox.askAI net (ChatBox.askAll s nets)).2 = .fulfilled := by
  have hq := askAll_query nets s
  have hpay : ChatBox.payload (ChatBox.askAll s nets) = ChatBox.payload s := by
    simp [ChatBox.payload, hq]
  have hask : ChatBox.askAI net (ChatBox.askAll s nets)
      = ([.setResponse answer], .fulfilled) := by
    simp [ChatBox.askAI, hpay, hpost, hans]
  refine ⟨?_, by rw [hask], by rw [hask]⟩
  simp only [ChatBox.askAll, List.foldl_append, List.foldl_cons, List.foldl_nil]
  show ChatBox.ask net (ChatBox.askAll s nets) = _
  simp [ChatBox.ask, hask, ChatBox.applyEffect, hq]

theorem ask_overwrites_answer_witness :
    axios.post (netReply 200 (answerBody "250")) ChatBox.url
        (ChatBox.payload ⟨"What is revenue?", .string ""⟩) = .ok ⟨200, answerBody "250"⟩
    ∧ (answerBody "250").get "answer" = .ok (.string "250")
    ∧ ChatBox.askAll ⟨"What is revenue?", .string ""⟩
        ([netReply 200 (answerBody "100")] ++ [netReply 200 (answerBody "250")])
        = ⟨"What is revenue?", .string "250"⟩ :=
  ⟨rfl, rfl, (ask_overwrites_answer ⟨"What is revenue?", .string ""⟩
    [netReply 200 (answerBody "100")] (netReply 200 (answerBody "250"))
    ⟨200, answerBody "250"⟩ (.string "250") rfl rfl).1⟩

/-- C7 (the code at the failing input): `askAI` has no `try`, so a failed request makes
its promise reject, with the status error for a 500 response and with the transport
error when the network is down, while `handleLogin` is fulfilled whatever the network
answers. -/
theorem askAI_rejects_on_http_failure :
    ChatBox.askAI (netReply 500 .null) ⟨"What is revenue?", .string ""⟩
      = ([], .rejected (.axiosError (some 500)))
    ∧ ChatBox.askAI netDown ⟨"What is revenue?", .string ""⟩
      = ([], .rejected (.axiosError none))
    ∧ ∀ (net : Network) (l : LoginState), (Login.handleLogin net l).2 = .fulfilled := by
  refine ⟨rfl, rfl, ?_⟩
  intro net l
  unfold Login.handleLogin
  cases axios.post net Login.url (Login.payload l) <;> rfl

/-- C8: when the request of an ask call fails, `askAI` calls no state setter and the
state of `ChatBox` after the call is the state before it: the answer slot and the query
text are unchanged. -/
theorem ask_failure_keeps_state (s : ChatState) (net : Network) (err : JSError)
    (hf : axios.post net ChatBox.url (ChatBox.payload s) = .error err) :
    (ChatBox.askAI net s).1 = []
    ∧ ChatBox.ask net s = s
    ∧ (ChatBox.ask net s).response = s.response
    ∧ (ChatBox.ask net s).query = s.query := by
  have h : ChatBox.askAI net s = ([], .rejected err) := by simp [ChatBox.askAI, hf]
  have h2 : ChatBox.ask net s = s := by simp [ChatBox.ask, h]
  exact ⟨by rw [h], h2, by rw [h2], by rw [h2]⟩

theorem ask_failure_keeps_state_witness :
    axios.post (netReply 503 .null) ChatBox.url
        (ChatBox.payload ⟨"And assets?", .string "100"⟩) = .error (.axiosError (some 503))
    ∧ ChatBox.ask (netReply 503 .null) ⟨"And assets?", .string "100"⟩
        = ⟨"And assets?", .string "100"⟩ :=
  ⟨rfl, (ask_failure_keeps_state ⟨"And assets?", .string "100"⟩ (netReply 503 .null)
    (.axiosError (some 503)) rfl).2.1⟩

/-! ## Dashboard -/

/-- C10 (counterexample): the tree that `Dashboard` returns for Ann mounts no component
at all, so it holds no `ChartPanel`. -/
theorem dashboard_renders_no_chart :
    ∃ tree, Dashboard annBody .clearUser = .ok tree
      ∧ tree.components = [] ∧ "ChartPanel" ∉ tree.components := by
  refine ⟨_, rfl, ?_, ?_⟩ <;>
    simp [Element.components, Element.componentsList, strProp]

/-- C10 (amended): for every truthy `user` (every value that `App` passes), `Dashboard`
returns exactly a heading with the greeting built from `user.name`, a paragraph with
the role label built from `user.role`, and a Logout button bound to `onLogout`; the
tree mounts no sub-component (no chart), and `onLogout` is the only function in it. -/
theorem dashboard_tree (user : JSValue) (onLogout : Handler) (h : user.truthy = true) :
    ∃ name role tree, user.get "name" = .ok name ∧ user.get "role" = .ok role
      ∧ Dashboard user onLogout = .ok tree
      ∧ tree = .node (.host "div")
          [strProp "className" "flex flex-col items-center justify-center h-screen"]
          [ .node (.host "h1") [strProp "className" "text-3xl font-bold mb-4"]
              [.text "Welcome, ", .expr name],
            .node (.host "p") [] [.text "Your role: ", .expr role],
            .node (.host "button")
              [("onClick", .fn onLogout),
                strProp "className" "bg-red-500 text-white px-4 py-2 rounded mt-4"]
              [.text "Logout"] ]
      ∧ tree.components = []
      ∧ tree.handlers = [onLogout] := by
  have hget : ∀ key, ∃ v, user.get key = .ok v := by
    intro key
    cases user <;> first
      | exact ⟨_, rfl⟩
      | simp [JSValue.truthy] at h
  obtain ⟨name, hname⟩ := hget "name"
  obtain ⟨role, hrole⟩ := hget "role"
  refine ⟨name, role, _, hname, hrole, ?_, rfl, ?_, ?_⟩
  · simp [Dashboard, hname, hrole, bind, Except.bind, pure, Except.pure]
  · simp [Element.components, Element.componentsList]
  · simp [Element.handlers, Element.handlersList, propHandlers, strProp]

theorem dashboard_tree_witness :
    annBody.truthy = true
    ∧ ∃ name role tree, annBody.get "name" = .ok name ∧ annBody.get "role" = .ok role
      ∧ Dashboard annBody .clearUser = .ok tree
      ∧ tree = .node (.host "div")
          [strProp "className" "flex flex-col items-center justify-center h-screen"]
          [ .node (.host "h1") [strProp "className" "text-3xl font-bold mb-4"]
              [.text "Welcome, ", .expr name],
            .node (.host "p") [] [.text "Your role: ", .expr role],
            .node (.host "button")
              [("onClick", .fn .clearUser),
                strProp "className" "bg-red-500 text-white px-4 py-2 rounded mt-4"]
              [.text "Logout"] ]
      ∧ tree.components = []
      ∧ tree.handlers = [.clearUser] :=
  ⟨rfl, dashboard_tree annBody .clearUser rfl⟩
